import Mathlib

/-!
Shallow embedding of the campus-connect marketplace backend.

The embedded code is routes/listings.js (catalog read paths, listing
creation, rating submission and deletion, partial update, deletion) and
routes/admin.js (moderation).  Request bodies and driver rows are
modeled with a small JavaScript value type; machine arithmetic is exact
(JS numbers that occur here are small decimals); database queries are
translated statement by statement, with the one genuinely
nondeterministic part (ORDER BY leaving ties unspecified) modeled as a
relation on possible outputs.
-/

namespace CampusConnect

/-- The value in a variant's stock slot as it arrives from a JSON body:
a number, null, or absent (undefined).  String stocks are outside the
modeled domain. -/
inductive StockVal where
  | sNum (q : ℚ)
  | sNull
  | sUndef
  deriving DecidableEq

/-- One element of a listing's variants array: optional color, optional
size (absent or a string), and a stock slot. -/
structure Variant where
  color : Option String
  size : Option String
  stock : StockVal
  deriving DecidableEq

/-- JavaScript-style values as they appear in request bodies and in rows
returned by the database driver: numbers, strings, null, undefined, and
the two array shapes that occur in this program (arrays of strings and
arrays of variant objects).  NaN is not a constructor; it shows up as
toNumber returning none. -/
inductive JsVal where
  | jsNum (q : ℚ)
  | jsStr (s : String)
  | jsNull
  | jsUndef
  | jsStrArr (elems : List String)
  | jsVariantArr (elems : List Variant)
  deriving DecidableEq

/-- JS String.prototype.trim, computed on the character list (the
built-in String.trim is byte-position based and is avoided so that
concrete instances evaluate). -/
def jsTrim (s : String) : String :=
  String.mk (((s.data.dropWhile Char.isWhitespace).reverse.dropWhile
    Char.isWhitespace).reverse)

/-- Numeric value of a string of decimal digit characters. -/
def digitsToNat (cs : List Char) : ℕ :=
  cs.foldl (fun acc c => 10 * acc + (c.toNat - 48)) 0

/-- JS Number() applied to a string: leading/trailing whitespace is
trimmed, the empty string is 0, otherwise an optional sign followed by
integer digits and an optional fraction part (at least one digit in
total).  Exponent and hex literal forms are not modeled.  none is NaN. -/
def parseJsNumber (s : String) : Option ℚ :=
  let t := jsTrim s
  if t = "" then some 0
  else
    let signed : ℚ × List Char :=
      match t.data with
      | '+' :: r => (1, r)
      | '-' :: r => (-1, r)
      | r => (1, r)
    let sg := signed.1
    let cs := signed.2
    let ip := cs.takeWhile Char.isDigit
    let rest := cs.dropWhile Char.isDigit
    match rest with
    | [] => if ip = [] then none else some (sg * (digitsToNat ip : ℚ))
    | '.' :: fr =>
      let fp := fr.takeWhile Char.isDigit
      let rest2 := fr.dropWhile Char.isDigit
      if rest2 = [] ∧ (ip ≠ [] ∨ fp ≠ []) then
        some (sg * ((digitsToNat ip : ℚ) + (digitsToNat fp : ℚ) / (10 : ℚ) ^ fp.length))
      else none
    | _ => none

/-- JS Number() coercion on the modeled values; none is NaN.  The array
cases never occur in a numeric position in this program and are treated
as NaN. -/
def toNumber : JsVal → Option ℚ
  | .jsNum q => some q
  | .jsStr s => parseJsNumber s
  | .jsNull => some 0
  | .jsUndef => none
  | .jsStrArr _ => none
  | .jsVariantArr _ => none

/-- JS truthiness: 0, the empty string, null and undefined are falsy. -/
def jsFalsy : JsVal → Bool
  | .jsNum q => q == 0
  | .jsStr s => s == ""
  | .jsNull => true
  | .jsUndef => true
  | .jsStrArr _ => false
  | .jsVariantArr _ => false

/-- Array.isArray. -/
def jsIsArray : JsVal → Bool
  | .jsStrArr _ => true
  | .jsVariantArr _ => true
  | _ => false

/-- A row of the listings table.  Text-like columns are kept as JS
values (the driver stores whatever parameter it was handed); the numeric
columns price, stock_quantity, average_rating and the integer
rating_count are exact; created_at is an abstract tick. -/
structure Listing where
  id : ℕ
  user_id : ℕ
  title : JsVal
  description : JsVal
  price : ℚ
  condition : JsVal
  whatsapp_phone : JsVal
  image_url : JsVal
  image_urls : JsVal
  stock_quantity : ℚ
  category : JsVal
  variants : List Variant
  status : String
  average_rating : ℚ
  rating_count : ℕ
  created_at : ℕ
  deriving DecidableEq

/-- A row of the ratings table. -/
structure Rating where
  id : ℕ
  listing_id : ℕ
  user_id : ℕ
  rating : ℚ
  comment : Option String
  deriving DecidableEq

/-- The acting identity the auth middleware attaches to a request
(req.user = decoded JWT payload with userId and role). -/
structure Identity where
  userId : ℕ
  role : String
  deriving DecidableEq

/-- The error responses the routes produce: 400, 403 and 404 with their
message bodies. -/
inductive RouteError where
  | validationError (msg : String)
  | permissionError (msg : String)
  | notFound (msg : String)
  deriving DecidableEq

/-- The relevant database state for the rating routes: the listings and
ratings tables plus the sequence feeding the ratings primary key. -/
structure DB where
  listings : List Listing
  ratings : List Rating
  nextRatingId : ℕ
  deriving DecidableEq

/-- Rounding performed by the numeric(3,2) cast in the aggregate update
statements: two decimal places, halves rounded away from zero. -/
def pgRound2 (q : ℚ) : ℚ :=
  (if 0 ≤ q then ((⌊q * 100 + 1 / 2⌋ : ℤ) : ℚ)
   else -((⌊-(q * 100) + 1 / 2⌋ : ℤ) : ℚ)) / 100

/-- SELECT ... FROM ratings WHERE listing_id = lid. -/
def ratingsFor (db : DB) (lid : ℕ) : List Rating :=
  db.ratings.filter (fun r => r.listing_id == lid)

/-- AVG(rating)::numeric(3,2) over a nonempty set of rating rows. -/
def avgFor (rs : List Rating) : ℚ :=
  pgRound2 ((rs.map Rating.rating).sum / rs.length)

/-- The successful tail of POST /api/listings/:id/rating: insert the
rating row, then increment rating_count and recompute average_rating
from the live rating rows of the listing (the AVG subquery runs after
the insert, so it includes the new row). -/
def rateSuccess (db : DB) (listingId userId : ℕ) (v : ℚ)
    (comment : Option String) : DB :=
  let ratings2 := db.ratings ++ [⟨db.nextRatingId, listingId, userId, v, comment⟩]
  let newAvg := avgFor (ratings2.filter (fun r => r.listing_id == listingId))
  let listings2 := db.listings.map (fun l =>
    if l.id == listingId then
      { l with rating_count := l.rating_count + 1, average_rating := newAvg }
    else l)
  { listings := listings2, ratings := ratings2, nextRatingId := db.nextRatingId + 1 }

/-- POST /api/listings/:id/rating (listings.js lines 330-367).  The body
rating is an optional number (none when absent or non-numeric); the
bang-rating falsiness check additionally rejects an exact 0. -/
def rate (db : DB) (listingId userId : ℕ) (rating : Option ℚ)
    (comment : Option String) : Except RouteError Unit × DB :=
  match rating with
  | none =>
    (Except.error (RouteError.validationError "Rating must be between 1 and 5"), db)
  | some v =>
    if v = 0 ∨ v < 1 ∨ v > 5 then
      (Except.error (RouteError.validationError "Rating must be between 1 and 5"), db)
    else if ¬ db.listings.any (fun l => l.id == listingId) then
      (Except.error (RouteError.notFound "Listing not found"), db)
    else if db.ratings.any (fun r => r.listing_id == listingId && r.user_id == userId) then
      (Except.error (RouteError.validationError "You have already rated this listing"), db)
    else
      (Except.ok (), rateSuccess db listingId userId v comment)

/-- The successful tail of DELETE /api/listings/ratings/:ratingId:
delete the row, then set rating_count to the live COUNT and
average_rating to COALESCE(AVG(...)::numeric(3,2), 0) for the owning
listing. -/
def deleteRatingSuccess (db : DB) (ratingId targetListing : ℕ) : DB :=
  let ratings2 := db.ratings.filter (fun r2 => r2.id != ratingId)
  let remaining := ratings2.filter (fun r2 => r2.listing_id == targetListing)
  let newAvg := if remaining.length = 0 then 0 else avgFor remaining
  let listings2 := db.listings.map (fun l2 =>
    if l2.id == targetListing then
      { l2 with rating_count := remaining.length, average_rating := newAvg }
    else l2)
  { db with listings := listings2, ratings := ratings2 }

/-- DELETE /api/listings/ratings/:ratingId (listings.js lines 511-548).
The initial SELECT joins ratings with listings, so a rating whose
listing is gone reads as not found.  Only the listing owner or an admin
may delete. -/
def deleteRating (db : DB) (identity : Identity) (ratingId : ℕ) :
    Except RouteError Unit × DB :=
  match (db.ratings.find? (fun r => r.id == ratingId)).bind
      (fun r => (db.listings.find? (fun l => l.id == r.listing_id)).map
        (fun l => (r, l))) with
  | none => (Except.error (RouteError.notFound "Rating not found"), db)
  | some (r, l) =>
    if identity.userId ≠ l.user_id ∧ identity.role ≠ "admin" then
      (Except.error (RouteError.permissionError "Not authorized to delete this rating"), db)
    else
      (Except.ok (), deleteRatingSuccess db ratingId r.listing_id)

/-- One step of the rating workload: a rate call or a deleteRating
call. -/
inductive Op where
  | opRate (listingId userId : ℕ) (rating : Option ℚ) (comment : Option String)
  | opDeleteRating (identity : Identity) (ratingId : ℕ)

/-- The state after one operation (failed calls leave the state as is,
matching the handlers, which return before any write on every error
path). -/
def applyOp (db : DB) : Op → DB
  | .opRate lid uid v c => (rate db lid uid v c).2
  | .opDeleteRating i rid => (deleteRating db i rid).2

/-- The state after a sequence of operations. -/
def applyOps (db : DB) : List Op → DB
  | [] => db
  | op :: rest => applyOps (applyOp db op) rest

/-- Well-formed rating store: primary-key ids are distinct and below the
next value of the id sequence. -/
def WF (db : DB) : Prop :=
  (db.ratings.map Rating.id).Nodup ∧ ∀ r ∈ db.ratings, r.id < db.nextRatingId

/-- The stored aggregates of every listings row with the given id agree
with the live rating rows: exact count, and average equal to the
two-decimal rounding of the mean (0 when no ratings remain). -/
def consistentFor (db : DB) (lid : ℕ) : Prop :=
  ∀ l ∈ db.listings, l.id = lid →
    l.rating_count = (ratingsFor db lid).length ∧
    l.average_rating =
      (if (ratingsFor db lid).length = 0 then 0 else avgFor (ratingsFor db lid))

/-- The aggregate relationship exactly as the specification words it:
average_rating equal to the arithmetic mean itself. -/
def specConsistentFor (db : DB) (lid : ℕ) : Prop :=
  ∀ l ∈ db.listings, l.id = lid →
    l.rating_count = (ratingsFor db lid).length ∧
    l.average_rating =
      (if (ratingsFor db lid).length = 0 then 0
       else ((ratingsFor db lid).map Rating.rating).sum / (ratingsFor db lid).length)

/-- PATCH /api/admin/listings/:id (admin.js lines 30-56).  The route is
behind the generic auth middleware only: the handler validates the
status value, looks the listing up, and updates it.  It never inspects
the acting identity's role.  Returns the RETURNING id, title, status
triple of the updated row. -/
def moderateListing (db : List Listing) (identity : Identity) (id : ℕ)
    (status : Option String) : Except RouteError (ℕ × JsVal × String) × List Listing :=
  if status = some "approved" ∨ status = some "rejected" then
    let s := status.getD ""
    match db.find? (fun l => l.id == id) with
    | none => (Except.error (RouteError.notFound "Listing not found"), db)
    | some l =>
      let db2 := db.map (fun l2 => if l2.id == id then { l2 with status := s } else l2)
      (Except.ok (l.id, l.title, s), db2)
  else
    (Except.error (RouteError.validationError "Invalid status value"), db)

/-- DELETE /api/listings/:id (listings.js lines 489-508): the listing
must exist, and the caller must be its owner or an admin. -/
def deleteListing (db : List Listing) (identity : Identity) (id : ℕ) :
    Except RouteError Unit × List Listing :=
  match db.find? (fun l => l.id == id) with
  | none => (Except.error (RouteError.notFound "Listing not found"), db)
  | some l =>
    if ¬ identity.userId = l.user_id ∧ ¬ identity.role = "admin" then
      (Except.error (RouteError.permissionError "Permission denied"), db)
    else
      (Except.ok (), db.filter (fun l2 => l2.id != id))

/-- Number() on the stock slot of a variant entry: null coerces to 0, a
missing stock is NaN. -/
def stockToNumber : StockVal → Option ℚ
  | .sNum q => some q
  | .sNull => some 0
  | .sUndef => none

/-- The filter predicate applied to each raw variant entry, identical on
the create and patch paths: (v.color or empty).trim() or
(v.size or empty).trim() must be a non-empty string, and Number(v.stock)
must be a non-NaN value that is at least 0. -/
def variantKeep (v : Variant) : Bool :=
  ((jsTrim (v.color.getD "") != "") || (jsTrim (v.size.getD "") != "")) &&
    (match stockToNumber v.stock with
     | some q => decide (0 ≤ q)
     | none => false)

/-- variants.filter(...) as run on both write paths. -/
def filterVariants (l : List Variant) : List Variant := l.filter variantKeep

/-- The variant-keeping rule exactly as the specification words it: a
color or size non-empty after trim, and a stock field that IS a
non-negative numeric value. -/
def specVariantKeep (v : Variant) : Prop :=
  (jsTrim (v.color.getD "") ≠ "" ∨ jsTrim (v.size.getD "") ≠ "") ∧
    (match v.stock with
     | StockVal.sNum q => 0 ≤ q
     | _ => False)

/-- The destructured body of POST /api/listings; an absent field is
none and the destructuring defaults are applied in the handler. -/
structure CreateInput where
  title : Option String := none
  description : Option String := none
  price : JsVal := JsVal.jsUndef
  condition : Option JsVal := none
  whatsapp_phone : Option JsVal := none
  image_urls : Option JsVal := none
  stock_quantity : Option ℚ := none
  category : Option JsVal := none
  variants : Option JsVal := none

/-- POST /api/listings (listings.js lines 278-327).  The price check
(bang-price or isNaN(price) or price at most 0) is equivalent on the
modeled values to: Number coercion fails, or the coerced value is at
most 0 (every falsy value coerces to 0 or NaN).  The new row id and
created_at tick are supplied by the store.  A variants value that is an
array of non-variant elements (jsStrArr) passes Array.isArray and every
element is dropped by the filter, as string elements have no color or
size property. -/
def createListing (db : List Listing) (newId createdAt userId : ℕ)
    (input : CreateInput) : Except RouteError (ℕ × JsVal × String × ℕ) × List Listing :=
  match input.title with
  | none => (Except.error (RouteError.validationError "Title is required"), db)
  | some t =>
    if jsTrim t = "" then
      (Except.error (RouteError.validationError "Title is required"), db)
    else
      match toNumber input.price with
      | none => (Except.error (RouteError.validationError "Valid positive price required"), db)
      | some p =>
        if p ≤ 0 then
          (Except.error (RouteError.validationError "Valid positive price required"), db)
        else if (input.stock_quantity.getD 1) < 1 then
          (Except.error (RouteError.validationError "Stock quantity must be at least 1"), db)
        else
          let rawVariants := input.variants.getD (JsVal.jsVariantArr [])
          if jsIsArray rawVariants then
            let cleaned : List Variant :=
              match rawVariants with
              | JsVal.jsVariantArr vs => filterVariants vs
              | _ => []
            let phone := input.whatsapp_phone.getD JsVal.jsUndef
            let newListing : Listing := {
              id := newId
              user_id := userId
              title := JsVal.jsStr (jsTrim t)
              description :=
                match input.description with
                | some d => if d = "" then JsVal.jsNull else JsVal.jsStr d
                | none => JsVal.jsNull
              price := p
              condition := input.condition.getD (JsVal.jsStr "Used - Good")
              whatsapp_phone := if jsFalsy phone then JsVal.jsNull else phone
              image_url := JsVal.jsNull
              image_urls := input.image_urls.getD (JsVal.jsStrArr [])
              stock_quantity := input.stock_quantity.getD 1
              category := input.category.getD (JsVal.jsStr "Other")
              variants := cleaned
              status := "pending"
              average_rating := 0
              rating_count := 0
              created_at := createdAt }
            (Except.ok (newId, JsVal.jsStr (jsTrim t), "pending", createdAt), db ++ [newListing])
          else
            (Except.error (RouteError.validationError "Variants must be an array"), db)

/-- The allowedFields whitelist of PATCH /api/listings/:id (lines
374-385), in source order. -/
def allowedFields : List String :=
  ["title", "description", "price", "condition", "whatsapp_phone",
   "image_url", "image_urls", "stock_quantity", "category", "variants"]

/-- The whitelist as the specification lists it, in the source's column
names (contactHandle is the whatsapp_phone column, images is image_urls,
stockQuantity is stock_quantity). -/
def specAllowedFields : List String :=
  ["title", "description", "price", "condition", "whatsapp_phone",
   "image_urls", "stock_quantity", "category", "variants"]

/-- The updates object: every allowed field whose body value is defined,
in whitelist order (lines 387-392). -/
def buildUpdates (body : List (String × JsVal)) : List (String × JsVal) :=
  allowedFields.filterMap (fun f =>
    match body.lookup f with
    | some v => if v = JsVal.jsUndef then none else some (f, v)
    | none => none)

/-- Is a price present in the updates and rejected by the patch
validation (NaN or at most 0)? -/
def priceUpdateBad (updates : List (String × JsVal)) : Bool :=
  match updates.lookup "price" with
  | some v =>
    match toNumber v with
    | none => true
    | some q => decide (q ≤ 0)
  | none => false

/-- Is a stock_quantity present in the updates and rejected (NaN or
negative)? -/
def stockUpdateBad (updates : List (String × JsVal)) : Bool :=
  match updates.lookup "stock_quantity" with
  | some v =>
    match toNumber v with
    | none => true
    | some q => decide (q < 0)
  | none => false

/-- Does the updates object carry a variants value that fails
Array.isArray (checked inside the statement-building loop, before the
UPDATE runs)? -/
def updatesHaveNonArrayVariants (updates : List (String × JsVal)) : Bool :=
  updates.any (fun kv => kv.1 == "variants" && !(jsIsArray kv.2))

/-- Writing one update entry into the stored row.  price and
stock_quantity were coerced with Number() by the validation step; the
variants value is filtered (and then serialized for the jsonb column,
which the model keeps as the filtered list).  A jsStrArr variants value
filters to the empty list, as its string elements have no color or size
property. -/
def applyColumn (l : Listing) (key : String) (v : JsVal) : Listing :=
  if key = "title" then { l with title := v }
  else if key = "description" then { l with description := v }
  else if key = "price" then { l with price := (toNumber v).getD 0 }
  else if key = "condition" then { l with condition := v }
  else if key = "whatsapp_phone" then { l with whatsapp_phone := v }
  else if key = "image_url" then { l with image_url := v }
  else if key = "image_urls" then { l with image_urls := v }
  else if key = "stock_quantity" then { l with stock_quantity := (toNumber v).getD 0 }
  else if key = "category" then { l with category := v }
  else if key = "variants" then
    { l with variants :=
        match v with
        | JsVal.jsVariantArr vs => filterVariants vs
        | _ => [] }
  else l

/-- PATCH /api/listings/:id after the updates object is built (lines
394-472): empty change set, then price and stock validation, then the
ownership check (the first store access), then the variants array check
inside the statement-building loop, then the single UPDATE. -/
def patchCore (db : List Listing) (userId id : ℕ)
    (updates : List (String × JsVal)) : Except RouteError Listing × List Listing :=
  if updates.isEmpty then
    (Except.error (RouteError.validationError "No valid fields provided for update"), db)
  else if priceUpdateBad updates then
    (Except.error (RouteError.validationError "Price must be a positive number"), db)
  else if stockUpdateBad updates then
    (Except.error (RouteError.validationError "Stock quantity cannot be negative"), db)
  else
    match db.find? (fun l => l.id == id) with
    | none => (Except.error (RouteError.notFound "Listing not found"), db)
    | some l =>
      if l.user_id ≠ userId then
        (Except.error (RouteError.permissionError "You are not authorized to edit this listing"), db)
      else if updatesHaveNonArrayVariants updates then
        (Except.error (RouteError.validationError "Variants must be an array"), db)
      else
        -- UPDATE ... WHERE id = $n writes the SET columns into every
        -- matching row; RETURNING * hands back the first updated row,
        -- which is the row found by the ownership SELECT.
        let applyAll := fun (r : Listing) =>
          updates.foldl (fun acc kv => applyColumn acc kv.1 kv.2) r
        (Except.ok (applyAll l), db.map (fun r => if r.id == id then applyAll r else r))

/-- PATCH /api/listings/:id (listings.js lines 370-486).  The handler
never reads the caller's role; userId is all it gets from the
identity. -/
def patchListing (db : List Listing) (userId id : ℕ)
    (body : List (String × JsVal)) : Except RouteError Listing × List Listing :=
  patchCore db userId id (buildUpdates body)

/-- The raw query parameters of GET /api/listings after parseInt: none
stands for an absent parameter or one that parses to NaN. -/
structure SearchParams where
  page : Option Int := none
  limit : Option Int := none
  sort : Option String := none
  search : Option String := none
  category : Option String := none

/-- parseInt(x) or-else the default: an absent or NaN parameter takes
the default, and so does an explicit 0, because 0 is falsy. -/
def intOr (o : Option Int) (d : Int) : Int :=
  match o with
  | none => d
  | some n => if n = 0 then d else n

/-- const page = parseInt(req.query.page) or 1. -/
def effPage (p : SearchParams) : Int := intOr p.page 1

/-- const limit = parseInt(req.query.limit) or 24. -/
def effLimit (p : SearchParams) : Int := intOr p.limit 24

/-- const sort = req.query.sort or the newest default (the empty string
is falsy and also falls back). -/
def effSort (p : SearchParams) : String :=
  match p.sort with
  | some s => if s = "" then "newest" else s
  | none => "newest"

/-- The trimmed search text, when the filter is active (an absent or
all-whitespace parameter disables it, as the trimmed value is falsy). -/
def searchActive (p : SearchParams) : Option String :=
  match p.search with
  | some s => if jsTrim s = "" then none else some (jsTrim s)
  | none => none

/-- Is the needle a contiguous subsequence of the haystack? -/
def subListOf (needle : List Char) : List Char → Bool
  | [] => needle.isEmpty
  | c :: t => needle.isPrefixOf (c :: t) || subListOf needle t

/-- column ILIKE percent-text-percent: case-insensitive substring match;
SQL NULL (and any non-text content) never matches. -/
def ilikeContains (pat : String) : JsVal → Bool
  | .jsStr s => subListOf (pat.data.map Char.toLower) (s.data.map Char.toLower)
  | _ => false

/-- The WHERE clause of GET /api/listings: status approved, the optional
ILIKE filter on title or description, and the optional exact category
filter (skipped for an absent, empty or sentinel All category). -/
def rowMatches (p : SearchParams) (l : Listing) : Bool :=
  l.status == "approved" &&
    (match searchActive p with
     | some s => ilikeContains s l.title || ilikeContains s l.description
     | none => true) &&
    (match p.category with
     | some c => if c = "" ∨ c = "All" then true else l.category == JsVal.jsStr c
     | none => true)

/-- The single ORDER BY key of the query (lines 36-38): price ascending
for price-low, price descending for price-high, otherwise created_at
descending.  No secondary key is given. -/
def orderLE (sort : String) (a b : Listing) : Prop :=
  if sort = "price-low" then a.price ≤ b.price
  else if sort = "price-high" then b.price ≤ a.price
  else b.created_at ≤ a.created_at

/-- price ascending, the comparator the price-low query sends. -/
def priceLe (a b : Listing) : Prop := a.price ≤ b.price

/-- price descending, the comparator the price-high query sends. -/
def priceGe (a b : Listing) : Prop := b.price ≤ a.price

/-- The page ordering the specification claims for price-low: price
ascending with equal-price ties broken by creation time descending. -/
def specPriceLowTie (a b : Listing) : Prop :=
  a.price < b.price ∨ (a.price = b.price ∧ b.created_at ≤ a.created_at)

/-- The rows the paginated SELECT may hand back: some arrangement of the
matching rows that is consistent with the single ORDER BY key (the
database leaves equal-key ties in unspecified order), windowed by
LIMIT/OFFSET with OFFSET = (page - 1) * limit. -/
def IsSearchRows (db : List Listing) (p : SearchParams) (rows : List Listing) : Prop :=
  ∃ sorted : List Listing,
    sorted.Perm (db.filter (rowMatches p)) ∧
    List.Chain' (orderLE (effSort p)) sorted ∧
    rows = (sorted.drop ((effPage p - 1) * effLimit p).toNat).take (effLimit p).toNat

/-- The page/limit guard of GET /api/listings (lines 32-34), applied to
the already-defaulted values. -/
def searchCheck (p : SearchParams) : Option RouteError :=
  if effPage p < 1 ∨ effLimit p < 1 ∨ effLimit p > 100 then
    some (RouteError.validationError "Invalid page or limit")
  else none

/-- The possible outcomes of GET /api/listings: the validation failure,
or a success carrying some admissible page of rows. -/
def SearchResult (db : List Listing) (p : SearchParams)
    (res : Except RouteError (List Listing)) : Prop :=
  match searchCheck p with
  | some e => res = Except.error e
  | none => ∃ rows, res = Except.ok rows ∧ IsSearchRows db p rows

/-- GET /api/listings/user/:userId (listings.js lines 227-275).  The
optional bearer token yields the requester identity; the handler
compares only the decoded userId against the path parameter and never
reads the role.  Rows of other owners are excluded, and non-approved
rows are visible only to the owner.  The ORDER BY created_at DESC of
this query is not modeled; the claims about this path concern which rows
are visible. -/
def listingsByOwner (db : List Listing) (userIdParam : ℕ)
    (requester : Option Identity) : List Listing :=
  let isOwner : Bool :=
    match requester with
    | some i => i.userId == userIdParam
    | none => false
  db.filter (fun l => l.user_id == userIdParam && (isOwner || l.status == "approved"))

/-- The slice of a driver row that the cleanListing helper touches; all
six fields arrive as arbitrary JS values (the driver hands numeric
columns back as strings, and json columns as whatever was stored). -/
structure RawRow where
  price : JsVal
  average_rating : JsVal
  rating_count : JsVal
  stock_quantity : JsVal
  image_urls : JsVal
  variants : JsVal
  deriving DecidableEq

/-- Number(x) or-else 0: NaN falls to 0, and 0 itself is falsy and stays
0, so the result is the coercion with NaN mapped to 0. -/
def numOr0 (v : JsVal) : ℚ := (toNumber v).getD 0

/-- The cleanListing helper (listings.js lines 8-16): the four numeric
fields are forced to numbers with Number(x) or-else 0, and the two array
fields are replaced by the empty array when they are not arrays.  The
record spread keeps every other row field unchanged; only these six are
modeled. -/
def cleanListing (row : RawRow) : RawRow :=
  { row with
    price := JsVal.jsNum (numOr0 row.price)
    average_rating := JsVal.jsNum (numOr0 row.average_rating)
    rating_count := JsVal.jsNum (numOr0 row.rating_count)
    stock_quantity := JsVal.jsNum (numOr0 row.stock_quantity)
    image_urls := if jsIsArray row.image_urls then row.image_urls else JsVal.jsStrArr []
    variants := if jsIsArray row.variants then row.variants else JsVal.jsVariantArr [] }

/-- Line 85: the rows of the public list read path are mapped through
cleanListing. -/
def listPathRows (rows : List RawRow) : List RawRow := rows.map cleanListing

/-- Line 126: the single row of GET /api/listings/:id. -/
def getOnePathRow (row : RawRow) : RawRow := cleanListing row

/-- Line 264: the rows of GET /api/listings/user/:userId. -/
def userPathRows (rows : List RawRow) : List RawRow := rows.map cleanListing

/-- The shape every cleaned row has: the four numeric fields are JS
numbers and the two array fields are arrays. -/
def CleanShape (r : RawRow) : Prop :=
  (∃ q, r.price = JsVal.jsNum q) ∧
  (∃ q, r.average_rating = JsVal.jsNum q) ∧
  (∃ q, r.rating_count = JsVal.jsNum q) ∧
  (∃ q, r.stock_quantity = JsVal.jsNum q) ∧
  jsIsArray r.image_urls = true ∧ jsIsArray r.variants = true

/-- A listings row with the given key columns and neutral content in
the remaining columns, for the concrete instances below. -/
def exListing (id uid : ℕ) (price : ℚ) (status : String) (created : ℕ) : Listing :=
  { id := id, user_id := uid, title := JsVal.jsStr "t", description := JsVal.jsNull,
    price := price, condition := JsVal.jsStr "Used - Good",
    whatsapp_phone := JsVal.jsNull, image_url := JsVal.jsNull,
    image_urls := JsVal.jsStrArr [], stock_quantity := 1,
    category := JsVal.jsStr "Other", variants := [], status := status,
    average_rating := 0, rating_count := 0, created_at := created }

/-- One pending listing owned by user 1. -/
def pendingDb : List Listing := [exListing 1 1 10 "pending" 0]

/-- A driver row with a non-numeric price, a null average, a numeric
string count, a missing stock and null array columns. -/
def c10row : RawRow :=
  { price := JsVal.jsStr "abc", average_rating := JsVal.jsNull,
    rating_count := JsVal.jsStr "2", stock_quantity := JsVal.jsUndef,
    image_urls := JsVal.jsNull, variants := JsVal.jsNull }

/-- Query parameters page=0 and limit=0. -/
def p00 : SearchParams := { page := some 0, limit := some 0 }

/-- Query parameter page=-1. -/
def pNeg : SearchParams := { page := some (-1) }

/-- Query parameter sort=price-low, everything else absent. -/
def pLow : SearchParams := { sort := some "price-low" }

/-- Two approved equal-price listings; tieA was created first. -/
def tieA : Listing := exListing 1 1 5 "approved" 1

/-- The later-created twin of tieA. -/
def tieB : Listing := exListing 2 1 5 "approved" 2

/-- An approved listing priced 3, created at tick 2. -/
def wLow : Listing := exListing 1 1 3 "approved" 2

/-- An approved listing priced 5, created at tick 1. -/
def wHigh : Listing := exListing 2 1 5 "approved" 1

instance : IsTrans Listing priceLe := ⟨fun _ _ _ h1 h2 => le_trans h1 h2⟩

instance : IsTrans Listing priceGe := ⟨fun _ _ _ h1 h2 => le_trans h2 h1⟩

/-- One approved listing owned by user 1. -/
def approvedDb : List Listing := [exListing 1 1 10 "approved" 0]

/-- One approved listing and an empty ratings table. -/
def rateDb : DB := ⟨[exListing 1 1 10 "approved" 0], [], 1⟩

/-- The columns the patch statement can never touch agree between two
rows. -/
def FixedCols (a b : Listing) : Prop :=
  a.id = b.id ∧ a.user_id = b.user_id ∧ a.status = b.status ∧
  a.average_rating = b.average_rating ∧ a.rating_count = b.rating_count ∧
  a.created_at = b.created_at

/-- The patch body touching only the legacy image_url column. -/
def imgBody : List (String × JsVal) := [("image_url", JsVal.jsStr "x")]

/-- A variant with a color and stock 2: kept by the filter. -/
def gVar : Variant := ⟨some "Red", none, StockVal.sNum 2⟩

/-- A variant with neither color nor size: dropped by the filter. -/
def bVar : Variant := ⟨none, none, StockVal.sNum 5⟩

/-- A valid create body carrying one keepable and one droppable
variant. -/
def cInput : CreateInput :=
  { title := some "Chair", price := JsVal.jsNum 10,
    variants := some (JsVal.jsVariantArr [gVar, bVar]) }

/-- Initial rating state: one approved listing, no ratings, aggregates
zeroed. -/
def c1db : DB := ⟨[exListing 1 1 10 "approved" 0], [], 1⟩

/-- Three successful ratings of listing 1 by three users: 5, 4, 4. -/
def c1ops : List Op :=
  [Op.opRate 1 10 (some 5) none, Op.opRate 1 11 (some 4) none,
   Op.opRate 1 12 (some 4) none]

/-- The three ratings followed by the owner deleting rating 1. -/
def c1opsW : List Op := c1ops ++ [Op.opDeleteRating ⟨1, "user"⟩ 1]

-- ### Theorems

/-- C2 — the moderation route does not enforce the admin role: a
moderate call by an authenticated identity with role user on an existing
pending listing is accepted and flips the stored status to approved,
where the claim (and the specification) require a PermissionError and an
unchanged status.  The failing input is listing 1 (owner 3, status
pending) moderated to approved by identity userId 2 role user. -/
theorem c2_moderate_role_unchecked :
    (moderateListing pendingDb ⟨2, "user"⟩ 1 (some "approved")).1 =
      Except.ok (1, JsVal.jsStr "t", "approved") ∧
    ((moderateListing pendingDb ⟨2, "user"⟩ 1 (some "approved")).2.map Listing.status) =
      ["approved"] := by
  constructor <;> rfl

/-- C5 (amended) — the by-owner read path returns exactly the rows of
the requested owner that are approved or requested by the owner
themselves: an authenticated requester whose userId equals the path
parameter sees every status, and every other requester (unauthenticated,
third party, or an admin who is not the owner — the handler never reads
the role) sees only approved rows. -/
theorem c5_by_owner_visibility (db : List Listing) (uid : ℕ)
    (req : Option Identity) (l : Listing) :
    l ∈ listingsByOwner db uid req ↔
      l ∈ db ∧ l.user_id = uid ∧
        ((∃ i, req = some i ∧ i.userId = uid) ∨ l.status = "approved") := by
  cases req with
  | none => simp [listingsByOwner, List.mem_filter, and_assoc]
  | some i =>
    by_cases h : i.userId = uid <;>
      simp [listingsByOwner, List.mem_filter, h, and_assoc]

/-- C5 — counterexample to the claim as stated: for the pending listing
of owner 1, an admin requester who is not the owner gets the empty list
(the handler only compares userId with the path parameter), while the
owner sees the pending row; the claim requires the admin to see all
statuses. -/
theorem c5_admin_counterexample :
    listingsByOwner pendingDb 1 (some ⟨2, "admin"⟩) = [] ∧
    listingsByOwner pendingDb 1 (some ⟨1, "user"⟩) = [exListing 1 1 10 "pending" 0] := by
  constructor <;> rfl

/-- Every cleaned row has the clean shape. -/
theorem cleanListing_shape (w : RawRow) : CleanShape (cleanListing w) := by
  refine ⟨⟨_, rfl⟩, ⟨_, rfl⟩, ⟨_, rfl⟩, ⟨_, rfl⟩, ?_, ?_⟩ <;>
  · simp only [cleanListing]
    split
    next h2 => exact h2
    next => rfl

/-- C10 — every row returned by the list read path, the single-listing
fetch and the by-owner read path has price, average_rating, rating_count
and stock_quantity as JS numbers and image_urls and variants as arrays;
a field whose raw value does not coerce to a number comes out as 0, a
numeric raw value is kept, and a non-array array-field comes out as the
empty array. -/
theorem c10_clean_read_paths (rows : List RawRow) (row : RawRow) (r : RawRow) :
    ((r ∈ listPathRows rows → CleanShape r) ∧
     CleanShape (getOnePathRow row) ∧
     (r ∈ userPathRows rows → CleanShape r)) ∧
    (toNumber row.price = none → (cleanListing row).price = JsVal.jsNum 0) ∧
    (∀ q, toNumber row.price = some q → (cleanListing row).price = JsVal.jsNum q) ∧
    (toNumber row.average_rating = none →
      (cleanListing row).average_rating = JsVal.jsNum 0) ∧
    (toNumber row.rating_count = none → (cleanListing row).rating_count = JsVal.jsNum 0) ∧
    (toNumber row.stock_quantity = none →
      (cleanListing row).stock_quantity = JsVal.jsNum 0) ∧
    (jsIsArray row.image_urls = false → (cleanListing row).image_urls = JsVal.jsStrArr []) ∧
    (jsIsArray row.variants = false → (cleanListing row).variants = JsVal.jsVariantArr []) := by
  refine ⟨⟨?_, cleanListing_shape row, ?_⟩, ?_, ?_, ?_, ?_, ?_, ?_, ?_⟩
  · intro hr
    obtain ⟨w, _, rfl⟩ := List.mem_map.1 hr
    exact cleanListing_shape w
  · intro hr
    obtain ⟨w, _, rfl⟩ := List.mem_map.1 hr
    exact cleanListing_shape w
  · intro h; simp [cleanListing, numOr0, h]
  · intro q h; simp [cleanListing, numOr0, h]
  · intro h; simp [cleanListing, numOr0, h]
  · intro h; simp [cleanListing, numOr0, h]
  · intro h; simp [cleanListing, numOr0, h]
  · intro h; simp [cleanListing, h]
  · intro h; simp [cleanListing, h]

/-- Witness for C10 at a concrete driver row: non-numeric price cleans
to number 0, null array columns clean to arrays, and the row keeps the
clean shape on every read path. -/
theorem c10_witness :
    CleanShape (getOnePathRow c10row) ∧
    (cleanListing c10row).price = JsVal.jsNum 0 ∧
    (cleanListing c10row ∈ listPathRows [c10row] → CleanShape (cleanListing c10row)) ∧
    CleanShape (cleanListing c10row) := by
  have h := c10_clean_read_paths [c10row] c10row (cleanListing c10row)
  exact ⟨h.1.2.1, h.2.1 (by decide), h.1.1, h.1.1 (by simp [listPathRows])⟩

/-- C6 (amended) — the guard applies to the defaulted values: when the
effective page is below 1 or the effective limit is outside 1..100
(i.e. a negative page, a negative limit, or a limit above 100), the
search fails with the validation error and returns no rows; but a raw
page of 0 or limit of 0 is falsy and silently replaced by the defaults
1 and 24 instead of being rejected. -/
theorem c6_search_param_validation (p : SearchParams) :
    (∀ (db : List Listing) (res : Except RouteError (List Listing)),
      SearchResult db p res →
      (effPage p < 1 ∨ effLimit p < 1 ∨ effLimit p > 100) →
      res = Except.error (RouteError.validationError "Invalid page or limit")) ∧
    (p.page = some 0 → effPage p = 1) ∧
    (p.limit = some 0 → effLimit p = 24) := by
  refine ⟨?_, ?_, ?_⟩
  · intro db res hres hbad
    unfold SearchResult searchCheck at hres
    rw [if_pos hbad] at hres
    exact hres
  · intro h; simp [effPage, intOr, h]
  · intro h; simp [effLimit, intOr, h]

/-- C6 — counterexample to the claim as stated: the request with raw
page 0 and raw limit 0 is not rejected; the search succeeds (here on the
empty store, returning the empty page), because parseInt-or-default
treats the falsy 0 as absent. -/
theorem c6_zero_page_counterexample :
    p00.page = some 0 ∧ p00.limit = some 0 ∧
    SearchResult [] p00 (Except.ok []) := by
  refine ⟨rfl, rfl, ?_⟩
  show ∃ rows, (Except.ok [] : Except RouteError (List Listing)) = Except.ok rows ∧
    IsSearchRows [] p00 rows
  exact ⟨[], rfl, [], by simp, List.chain'_nil, rfl⟩

/-- Witness for C6 at concrete inputs: page=-1 is rejected with the
validation error, while page=0 and limit=0 default to 1 and 24. -/
theorem c6_witness :
    (Except.error (RouteError.validationError "Invalid page or limit") :
        Except RouteError (List Listing)) =
      Except.error (RouteError.validationError "Invalid page or limit") ∧
    effPage p00 = 1 ∧ effLimit p00 = 24 := by
  have hres : SearchResult [] pNeg
      (Except.error (RouteError.validationError "Invalid page or limit")) := rfl
  exact ⟨(c6_search_param_validation pNeg).1 [] _ hres (Or.inl (by decide)),
    (c6_search_param_validation p00).2.1 rfl,
    (c6_search_param_validation p00).2.2 rfl⟩

/-- The price-low comparator the query sends is price ascending. -/
theorem orderLE_price_low : orderLE "price-low" = priceLe := by
  funext a b
  simp [orderLE, priceLe]

/-- The price-high comparator the query sends is price descending. -/
theorem orderLE_price_high : orderLE "price-high" = priceGe := by
  funext a b
  unfold orderLE priceGe
  rw [if_neg (by decide), if_pos rfl]

/-- An identity search page: the whole store matches, is already
ordered, and fits one default page. -/
theorem isSearchRows_id (db : List Listing)
    (hfilter : db.filter (rowMatches pLow) = db)
    (hchain : List.Chain' (orderLE "price-low") db)
    (hlen : db.length ≤ 24) :
    IsSearchRows db pLow db := by
  refine ⟨db, ?_, hchain, ?_⟩
  · rw [hfilter]
  · rw [show ((effPage pLow - 1) * effLimit pLow).toNat = 0 from rfl,
      show (effLimit pLow).toNat = 24 from rfl, List.drop_zero,
      List.take_of_length_le hlen]

/-- C7 (amended) — any page the price-low query may return is ordered by
price ascending (and any price-high page by price descending): the
ORDER BY key constrains every adjacent pair of the returned window.  The
equal-price tie order is left unspecified by the query (no secondary
key), so no creation-time tie rule holds; see the counterexample. -/
theorem c7_price_sort_monotone (db : List Listing) (p : SearchParams)
    (rows : List Listing) :
    (effSort p = "price-low" → IsSearchRows db p rows → List.Chain' priceLe rows) ∧
    (effSort p = "price-high" → IsSearchRows db p rows → List.Chain' priceGe rows) := by
  constructor
  · rintro hs ⟨sorted, -, hchain, hrows⟩
    rw [hs, orderLE_price_low] at hchain
    subst hrows
    exact hchain.sublist ((List.take_sublist _ _).trans (List.drop_sublist _ _))
  · rintro hs ⟨sorted, -, hchain, hrows⟩
    rw [hs, orderLE_price_high] at hchain
    subst hrows
    exact hchain.sublist ((List.take_sublist _ _).trans (List.drop_sublist _ _))

/-- C7 — counterexample to the tie-breaking part of the claim: with two
approved listings of equal price, the page that lists the earlier-created
row first is an admissible output of the price-low query (the ORDER BY
key holds between the pair), yet it violates the claimed price-then-
creation-time-descending order, so the ordering is not the claimed
deterministic one. -/
theorem c7_tie_order_counterexample :
    IsSearchRows [tieA, tieB] pLow [tieA, tieB] ∧
    ¬ List.Chain' specPriceLowTie [tieA, tieB] := by
  constructor
  · refine isSearchRows_id [tieA, tieB] rfl ?_ (by decide)
    exact List.chain'_pair.mpr (by rw [orderLE_price_low]; exact le_rfl)
  · intro h
    rcases List.chain'_pair.mp h with h5 | ⟨-, h21⟩
    · exact absurd h5 (lt_irrefl (5 : ℚ))
    · exact absurd h21 (by decide)

/-- Witness for C7 at a concrete store: a two-row price-low page with
prices 3 and 5 is admissible and the theorem yields its price-ascending
chain. -/
theorem c7_witness :
    effSort pLow = "price-low" ∧ IsSearchRows [wLow, wHigh] pLow [wLow, wHigh] ∧
    List.Chain' priceLe [wLow, wHigh] := by
  have hrows : IsSearchRows [wLow, wHigh] pLow [wLow, wHigh] := by
    refine isSearchRows_id [wLow, wHigh] rfl ?_ (by decide)
    exact List.chain'_pair.mpr (by rw [orderLE_price_low]; norm_num [priceLe, wLow, wHigh, exListing])
  exact ⟨rfl, hrows, (c7_price_sort_monotone [wLow, wHigh] pLow [wLow, wHigh]).1 rfl hrows⟩

/-- C3 — patch authorization is owner-only while delete is
owner-or-admin: for an existing listing, a patch whose body passes the
local validation but whose caller is not the owner fails with the
permission error and leaves the store unchanged (the patch handler never
reads the caller's role, so this covers admins); a delete by an admin
who is not the owner succeeds and removes the row; a delete by a caller
who is neither owner nor admin fails with the permission error and
changes nothing. -/
theorem c3_authorization_asymmetry (db : List Listing) (l : Listing)
    (uid id : ℕ) (body : List (String × JsVal)) (ident : Identity)
    (hfind : db.find? (fun x => x.id == id) = some l) :
    (l.user_id ≠ uid → buildUpdates body ≠ [] →
      priceUpdateBad (buildUpdates body) = false →
      stockUpdateBad (buildUpdates body) = false →
      patchListing db uid id body =
        (Except.error (RouteError.permissionError
          "You are not authorized to edit this listing"), db)) ∧
    (ident.role = "admin" → ident.userId ≠ l.user_id →
      deleteListing db ident id =
        (Except.ok (), db.filter (fun l2 => l2.id != id))) ∧
    (ident.userId ≠ l.user_id → ident.role ≠ "admin" →
      deleteListing db ident id =
        (Except.error (RouteError.permissionError "Permission denied"), db)) := by
  refine ⟨?_, ?_, ?_⟩
  · intro hne hup hpb hsb
    have h1 : (buildUpdates body).isEmpty = false := by
      cases hbe : buildUpdates body with
      | nil => exact absurd hbe hup
      | cons a t => rfl
    simp [patchListing, patchCore, h1, hpb, hsb, hfind, hne]
  · intro hadm hne2
    simp [deleteListing, hfind, hadm]
  · intro hne2 hnadm
    simp [deleteListing, hfind, hne2, hnadm]

/-- Witness for C3 at a concrete store: user 2 cannot patch user 1's
listing; admin user 2 can delete it; plain user 2 cannot. -/
theorem c3_witness :
    patchListing approvedDb 2 1 [("title", JsVal.jsStr "x")] =
      (Except.error (RouteError.permissionError
        "You are not authorized to edit this listing"), approvedDb) ∧
    deleteListing approvedDb ⟨2, "admin"⟩ 1 =
      (Except.ok (), approvedDb.filter (fun l2 => l2.id != 1)) ∧
    deleteListing approvedDb ⟨2, "user"⟩ 1 =
      (Except.error (RouteError.permissionError "Permission denied"), approvedDb) := by
  have ha := c3_authorization_asymmetry approvedDb (exListing 1 1 10 "approved" 0)
    2 1 [("title", JsVal.jsStr "x")] ⟨2, "admin"⟩ rfl
  have hu := c3_authorization_asymmetry approvedDb (exListing 1 1 10 "approved" 0)
    2 1 [("title", JsVal.jsStr "x")] ⟨2, "user"⟩ rfl
  exact ⟨ha.1 (by decide) (by decide) rfl rfl, ha.2.1 rfl (by decide),
    hu.2.2 (by decide) (by decide)⟩

/-- Mapping a row transformation that keeps ids does not change an
existence-by-id query. -/
theorem any_id_map (l : List Listing) (f : Listing → Listing)
    (hf : ∀ a, (f a).id = a.id) (n : ℕ) :
    (l.map f).any (fun x => x.id == n) = l.any (fun x => x.id == n) := by
  induction l with
  | nil => rfl
  | cons a t ih => simp [List.any_cons, hf a, ih]

/-- C4 — every failure path of the rate operation writes nothing (the
whole state is returned unchanged): an absent or non-numeric rating and
a rating outside 1..5 give the range validation error; an in-range
rating on a missing listing gives not-found; an in-range rating already
given by the same user gives the duplicate validation error; and after
one successful rate, a second in-range rate by the same user on the same
listing returns the duplicate validation error and leaves the state —
in particular rating_count — unchanged. -/
theorem c4_rate_error_paths (db : DB) (lid uid : ℕ) (v : ℚ) (c : Option String) :
    (rate db lid uid none c =
      (Except.error (RouteError.validationError "Rating must be between 1 and 5"), db)) ∧
    ((v < 1 ∨ v > 5) →
      rate db lid uid (some v) c =
        (Except.error (RouteError.validationError "Rating must be between 1 and 5"), db)) ∧
    (1 ≤ v → v ≤ 5 → db.listings.any (fun l => l.id == lid) = false →
      rate db lid uid (some v) c =
        (Except.error (RouteError.notFound "Listing not found"), db)) ∧
    (1 ≤ v → v ≤ 5 → db.listings.any (fun l => l.id == lid) = true →
      db.ratings.any (fun r => r.listing_id == lid && r.user_id == uid) = true →
      rate db lid uid (some v) c =
        (Except.error (RouteError.validationError "You have already rated this listing"), db)) ∧
    (1 ≤ v → v ≤ 5 → db.listings.any (fun l => l.id == lid) = true →
      db.ratings.any (fun r => r.listing_id == lid && r.user_id == uid) = false →
      (rate db lid uid (some v) c).1 = Except.ok () ∧
      ∀ v2 : ℚ, 1 ≤ v2 → v2 ≤ 5 →
        rate (rate db lid uid (some v) c).2 lid uid (some v2) c =
          (Except.error (RouteError.validationError "You have already rated this listing"),
           (rate db lid uid (some v) c).2)) := by
  have hrange : ∀ w : ℚ, 1 ≤ w → w ≤ 5 → ¬ (w = 0 ∨ w < 1 ∨ w > 5) := by
    rintro w h1 h5 (rfl | hlt | hgt)
    · exact absurd h1 (by norm_num)
    · exact absurd h1 (not_le.mpr hlt)
    · exact absurd h5 (not_le.mpr hgt)
  refine ⟨rfl, ?_, ?_, ?_, ?_⟩
  · intro h
    have : v = 0 ∨ v < 1 ∨ v > 5 := Or.inr h
    simp [rate, this]
  · intro h1 h5 hany
    simp [rate, hrange v h1 h5, hany]
  · intro h1 h5 hany hdup
    simp [rate, hrange v h1 h5, hany, hdup]
  · intro h1 h5 hany hdup
    have hfirst : rate db lid uid (some v) c =
        (Except.ok (), rateSuccess db lid uid v c) := by
      simp [rate, hrange v h1 h5, hany, hdup]
    rw [hfirst]
    refine ⟨rfl, ?_⟩
    intro v2 h21 h25
    have hl2 : (rateSuccess db lid uid v c).listings.any (fun l => l.id == lid) = true := by
      simp only [rateSuccess]
      rw [any_id_map _ _ (fun a => by split <;> rfl)]
      exact hany
    have hd2 : (rateSuccess db lid uid v c).ratings.any
        (fun r => r.listing_id == lid && r.user_id == uid) = true := by
      simp [rateSuccess, List.any_append]
    simp [rate, hrange v2 h21 h25, hl2, hd2]

/-- Witness for C4 at concrete inputs: rating 7 is rejected, rating a
missing listing is not-found, and rating twice gives the duplicate
error with the state of the first success unchanged. -/
theorem c4_witness :
    rate rateDb 1 10 (some 7) none =
      (Except.error (RouteError.validationError "Rating must be between 1 and 5"), rateDb) ∧
    rate rateDb 2 10 (some 3) none =
      (Except.error (RouteError.notFound "Listing not found"), rateDb) ∧
    (rate rateDb 1 10 (some 5) none).1 = Except.ok () ∧
    rate (rate rateDb 1 10 (some 5) none).2 1 10 (some 4) none =
      (Except.error (RouteError.validationError "You have already rated this listing"),
       (rate rateDb 1 10 (some 5) none).2) := by
  have hsecond := (c4_rate_error_paths rateDb 1 10 5 none).2.2.2.2
    (by norm_num) (by norm_num) (by decide) (by decide)
  exact ⟨(c4_rate_error_paths rateDb 1 10 7 none).2.1 (Or.inr (by norm_num)),
    (c4_rate_error_paths rateDb 2 10 3 none).2.2.1 (by norm_num) (by norm_num) (by decide),
    hsecond.1, hsecond.2 4 (by norm_num) (by norm_num)⟩

/-- Writing any single update entry leaves the non-whitelist columns of
the row unchanged. -/
theorem applyColumn_fixedCols (l : Listing) (k : String) (v : JsVal) :
    FixedCols (applyColumn l k v) l := by
  unfold applyColumn
  repeat' split
  all_goals exact ⟨rfl, rfl, rfl, rfl, rfl, rfl⟩

/-- Folding the whole update set leaves the non-whitelist columns
unchanged. -/
theorem foldl_applyColumn_fixedCols (updates : List (String × JsVal)) (l : Listing) :
    FixedCols (updates.foldl (fun acc kv => applyColumn acc kv.1 kv.2) l) l := by
  induction updates generalizing l with
  | nil => exact ⟨rfl, rfl, rfl, rfl, rfl, rfl⟩
  | cons kv t ih =>
    simp only [List.foldl_cons]
    have h1 := applyColumn_fixedCols l kv.1 kv.2
    have h2 := ih (applyColumn l kv.1 kv.2)
    exact ⟨h2.1.trans h1.1, h2.2.1.trans h1.2.1, h2.2.2.1.trans h1.2.2.1,
      h2.2.2.2.1.trans h1.2.2.2.1, h2.2.2.2.2.1.trans h1.2.2.2.2.1,
      h2.2.2.2.2.2.trans h1.2.2.2.2.2⟩

/-- A store transformed row by row with a FixedCols-preserving map is
FixedCols-related to the original store. -/
theorem forall2_fixedCols_map (db : List Listing) (g : Listing → Listing)
    (hg : ∀ r, FixedCols (g r) r) : List.Forall₂ FixedCols (db.map g) db := by
  induction db with
  | nil => simp
  | cons a t ih => exact List.Forall₂.cons (hg a) ih

/-- An unchanged store is FixedCols-related to itself. -/
theorem forall2_fixedCols_refl (db : List Listing) : List.Forall₂ FixedCols db db := by
  induction db with
  | nil => constructor
  | cons a t ih => exact List.Forall₂.cons ⟨rfl, rfl, rfl, rfl, rfl, rfl⟩ ih

/-- A body key outside the whitelist never reaches the updates object. -/
theorem buildUpdates_cons_unknown (body : List (String × JsVal)) (k : String)
    (v : JsVal) (hk : k ∉ allowedFields) :
    buildUpdates ((k, v) :: body) = buildUpdates body := by
  unfold buildUpdates
  apply List.filterMap_congr
  intro f hf
  have hne : (f == k) = false := by
    refine beq_eq_false_iff_ne.mpr ?_
    intro h
    exact hk (h ▸ hf)
  simp [List.lookup, hne]

/-- C8 (amended) — the patch whitelist is the ten allowedFields columns
(the nine the specification lists plus the legacy image_url column):
a body key outside the whitelist is ignored entirely, a body carrying no
defined whitelist field fails with the nothing-to-update validation
error and changes nothing, and whatever the body is, every row of the
resulting store agrees with the original row on all columns outside the
whitelist (id, owner, status, aggregates, created_at). -/
theorem c8_patch_whitelist_behavior :
    (∀ (db : List Listing) (uid id : ℕ) (body : List (String × JsVal))
        (k : String) (v : JsVal), k ∉ allowedFields →
      patchListing db uid id ((k, v) :: body) = patchListing db uid id body) ∧
    (∀ (db : List Listing) (uid id : ℕ) (body : List (String × JsVal)),
      buildUpdates body = [] →
      patchListing db uid id body =
        (Except.error (RouteError.validationError "No valid fields provided for update"),
         db)) ∧
    (∀ (db : List Listing) (uid id : ℕ) (body : List (String × JsVal)),
      List.Forall₂ FixedCols (patchListing db uid id body).2 db) := by
  refine ⟨?_, ?_, ?_⟩
  · intro db uid id body k v hk
    unfold patchListing
    rw [buildUpdates_cons_unknown body k v hk]
  · intro db uid id body h
    unfold patchListing
    rw [h]
    rfl
  · intro db uid id body
    unfold patchListing patchCore
    split
    · exact forall2_fixedCols_refl db
    split
    · exact forall2_fixedCols_refl db
    split
    · exact forall2_fixedCols_refl db
    split
    · exact forall2_fixedCols_refl db
    split
    · exact forall2_fixedCols_refl db
    split
    · exact forall2_fixedCols_refl db
    exact forall2_fixedCols_map db _ (fun r => by
      split
      · exact foldl_applyColumn_fixedCols _ _
      · exact ⟨rfl, rfl, rfl, rfl, rfl, rfl⟩)

/-- C8 — counterexample to the claim as stated: image_url is not one of
the nine whitelisted fields the claim lists, yet the owner's patch whose
body holds only image_url succeeds (rather than failing with
nothing-to-update) and changes the stored image_url column. -/
theorem c8_image_url_counterexample :
    "image_url" ∉ specAllowedFields ∧
    (patchListing approvedDb 1 1 imgBody).1 =
      Except.ok { exListing 1 1 10 "approved" 0 with image_url := JsVal.jsStr "x" } ∧
    (patchListing approvedDb 1 1 imgBody).2.map Listing.image_url = [JsVal.jsStr "x"] := by
  exact ⟨by decide, rfl, rfl⟩

/-- Witness for C8 at a concrete store: an unknown bogus key is ignored,
a body with only the bogus key is nothing-to-update, and the image_url
patch only moves whitelist columns. -/
theorem c8_witness :
    patchListing approvedDb 1 1 (("bogus", JsVal.jsStr "y") :: imgBody) =
      patchListing approvedDb 1 1 imgBody ∧
    patchListing approvedDb 1 1 [("bogus", JsVal.jsStr "y")] =
      (Except.error (RouteError.validationError "No valid fields provided for update"),
       approvedDb) ∧
    List.Forall₂ FixedCols (patchListing approvedDb 1 1 imgBody).2 approvedDb := by
  exact ⟨c8_patch_whitelist_behavior.1 approvedDb 1 1 imgBody "bogus"
      (JsVal.jsStr "y") (by decide),
    c8_patch_whitelist_behavior.2.1 approvedDb 1 1 [("bogus", JsVal.jsStr "y")] (by decide),
    c8_patch_whitelist_behavior.2.2 approvedDb 1 1 imgBody⟩

/-- C9 (amended) — the sanitizer keeps an element iff its color or size
is non-empty after trim AND its stock slot coerces under Number() to a
non-NaN value that is at least 0 (so a null stock, which coerces to 0,
is kept even though it is not itself a numeric value, and an absent
stock is NaN and dropped); the same filter runs on the create path and
on the patch path, dropping elements silently while the operation
succeeds; and a variants value that is not an array is a validation
failure on both paths. -/
theorem c9_variant_filter :
    (∀ v : Variant, variantKeep v = true ↔
      ((jsTrim (v.color.getD "") ≠ "" ∨ jsTrim (v.size.getD "") ≠ "") ∧
       ∃ q, stockToNumber v.stock = some q ∧ 0 ≤ q)) ∧
    (∀ (db : List Listing) (newId created uid : ℕ) (input : CreateInput)
        (t : String) (p : ℚ) (vs : List Variant),
      input.title = some t → jsTrim t ≠ "" → toNumber input.price = some p → 0 < p →
      1 ≤ input.stock_quantity.getD 1 → input.variants = some (JsVal.jsVariantArr vs) →
      (createListing db newId created uid input).1 =
        Except.ok (newId, JsVal.jsStr (jsTrim t), "pending", created) ∧
      ∃ nl : Listing, (createListing db newId created uid input).2 = db ++ [nl] ∧
        nl.variants = filterVariants vs) ∧
    (∀ (db : List Listing) (l : Listing) (uid id : ℕ) (vs : List Variant),
      db.find? (fun x => x.id == id) = some l → l.user_id = uid →
      ∃ l2 db2, patchListing db uid id [("variants", JsVal.jsVariantArr vs)] =
        (Except.ok l2, db2) ∧ l2.variants = filterVariants vs) ∧
    (∀ (db : List Listing) (newId created uid : ℕ) (input : CreateInput)
        (t : String) (p : ℚ) (w : JsVal),
      input.title = some t → jsTrim t ≠ "" → toNumber input.price = some p → 0 < p →
      1 ≤ input.stock_quantity.getD 1 → input.variants = some w → jsIsArray w = false →
      createListing db newId created uid input =
        (Except.error (RouteError.validationError "Variants must be an array"), db)) ∧
    (∀ (db : List Listing) (l : Listing) (uid id : ℕ) (w : JsVal),
      db.find? (fun x => x.id == id) = some l → l.user_id = uid →
      w ≠ JsVal.jsUndef → jsIsArray w = false →
      patchListing db uid id [("variants", w)] =
        (Except.error (RouteError.validationError "Variants must be an array"), db)) := by
  refine ⟨?_, ?_, ?_, ?_, ?_⟩
  · rintro ⟨c, s, st⟩
    cases st <;>
      simp [variantKeep, stockToNumber, Bool.and_eq_true, Bool.or_eq_true, bne_iff_ne]
  · intro db newId created uid input t p vs ht htr hp hpos hstock hv
    simp only [createListing, ht, if_neg htr, hp, if_neg (not_le.mpr hpos),
      if_neg (not_lt.mpr hstock), hv, Option.getD_some]
    exact ⟨rfl, _, rfl, rfl⟩
  · intro db l uid id vs hfind huid
    have hres : patchListing db uid id [("variants", JsVal.jsVariantArr vs)] =
        (Except.ok (applyColumn l "variants" (JsVal.jsVariantArr vs)),
         db.map (fun r =>
           if r.id == id then applyColumn r "variants" (JsVal.jsVariantArr vs) else r)) := by
      unfold patchListing patchCore
      rw [show buildUpdates [("variants", JsVal.jsVariantArr vs)] =
        [("variants", JsVal.jsVariantArr vs)] from rfl]
      simp only [hfind]
      rw [if_neg (show ¬ (l.user_id ≠ uid) from fun hh => hh huid)]
      rfl
    exact ⟨_, _, hres, rfl⟩
  · intro db newId created uid input t p w ht htr hp hpos hstock hv hw
    simp only [createListing, ht, if_neg htr, hp, if_neg (not_le.mpr hpos),
      if_neg (not_lt.mpr hstock), hv, Option.getD_some, hw]
    rfl
  · intro db l uid id w hfind huid hwu hjs
    have hbu : buildUpdates [("variants", w)] = [("variants", w)] := by
      simp [buildUpdates, allowedFields, List.filterMap_cons, List.lookup, hwu]
    have hnav : updatesHaveNonArrayVariants [("variants", w)] = true := by
      simp [updatesHaveNonArrayVariants, hjs]
    unfold patchListing
    rw [hbu]
    unfold patchCore
    simp only [hfind]
    rw [if_neg (show ¬ (l.user_id ≠ uid) from fun hh => hh huid), hnav]
    rfl

/-- C9 — counterexample to the claim as stated: the variant with color
Red and stock null is kept by the code's filter (Number(null) is 0,
which passes the non-negative check), but its stock is not a numeric
value, so the claim's keep-iff condition calls for dropping it. -/
theorem c9_null_stock_counterexample :
    variantKeep ⟨some "Red", none, StockVal.sNull⟩ = true ∧
    ¬ specVariantKeep ⟨some "Red", none, StockVal.sNull⟩ := by
  exact ⟨by decide, fun h => h.2⟩

/-- Witness for C9 at concrete inputs: the color-Red variant is kept and
the characterization applies; a create with one good and one optionless
variant succeeds storing only the good one; an owner patch stores the
filtered list; a string variants value is rejected on both paths. -/
theorem c9_witness :
    (variantKeep gVar = true ↔
      ((jsTrim (gVar.color.getD "") ≠ "" ∨ jsTrim (gVar.size.getD "") ≠ "") ∧
       ∃ q, stockToNumber gVar.stock = some q ∧ 0 ≤ q)) ∧
    ((createListing [] 7 3 1 cInput).1 =
        Except.ok (7, JsVal.jsStr (jsTrim "Chair"), "pending", 3) ∧
      ∃ nl : Listing, (createListing [] 7 3 1 cInput).2 = [] ++ [nl] ∧
        nl.variants = filterVariants [gVar, bVar]) ∧
    (∃ l2 db2, patchListing approvedDb 1 1
        [("variants", JsVal.jsVariantArr [gVar, bVar])] = (Except.ok l2, db2) ∧
      l2.variants = filterVariants [gVar, bVar]) ∧
    patchListing approvedDb 1 1 [("variants", JsVal.jsStr "nope")] =
      (Except.error (RouteError.validationError "Variants must be an array"),
       approvedDb) := by
  refine ⟨c9_variant_filter.1 gVar, ?_, ?_, ?_⟩
  · exact c9_variant_filter.2.1 [] 7 3 1 cInput "Chair" 10 [gVar, bVar]
      rfl (by decide) rfl (by norm_num) (by decide) rfl
  · exact c9_variant_filter.2.2.1 approvedDb (exListing 1 1 10 "approved" 0) 1 1
      [gVar, bVar] rfl rfl
  · exact c9_variant_filter.2.2.2.2 approvedDb (exListing 1 1 10 "approved" 0) 1 1
      (JsVal.jsStr "nope") rfl rfl (by decide) rfl

/-- Inserting a rating keeps the rating store well formed: the fresh id
comes from the sequence, above every stored id. -/
theorem rateSuccess_wf (db : DB) (L uid : ℕ) (v : ℚ) (c : Option String)
    (hwf : WF db) : WF (rateSuccess db L uid v c) := by
  obtain ⟨hnd, hbound⟩ := hwf
  constructor
  · simp only [rateSuccess, List.map_append]
    rw [List.nodup_append]
    refine ⟨hnd, List.nodup_singleton _, ?_⟩
    intro x hx hx2
    simp only [List.map_cons, List.map_nil, List.mem_singleton] at hx2
    obtain ⟨r, hr, rfl⟩ := List.mem_map.1 hx
    exact absurd (hx2 ▸ hbound r hr) (lt_irrefl _)
  · intro r hr
    simp only [rateSuccess] at hr
    rcases List.mem_append.1 hr with h | h
    · exact lt_trans (hbound r h) (Nat.lt_succ_self _)
    · rw [List.mem_singleton.1 h]
      exact Nat.lt_succ_self _

/-- Inserting a rating for some listing preserves the rounded-aggregate
consistency of any listing id: the incremented count stays exact because
it was exact before the insert, and the average is recomputed from the
live rows; other listing ids see neither their rows nor their ratings
change. -/
theorem rateSuccess_consistent (db : DB) (L uid : ℕ) (v : ℚ) (c : Option String)
    (lid : ℕ) (hcons : consistentFor db lid) :
    consistentFor (rateSuccess db L uid v c) lid := by
  have hrf : ratingsFor (rateSuccess db L uid v c) lid =
      ratingsFor db lid ++
        (if L = lid then [⟨db.nextRatingId, L, uid, v, c⟩] else []) := by
    simp only [ratingsFor, rateSuccess, List.filter_append]
    congr 1
    by_cases h : L = lid
    · subst h
      simp [List.filter]
    · simp [List.filter, beq_eq_false_iff_ne.mpr h, h]
  intro lx hlx hlid
  obtain ⟨a, ha, rfl⟩ := List.mem_map.1 hlx
  by_cases hc : (a.id == L) = true
  · simp only [if_pos hc] at hlid ⊢
    have haL : a.id = L := by simpa using hc
    have hLlid : L = lid := by rw [← haL]; exact hlid
    subst hLlid
    obtain ⟨hcnt, -⟩ := hcons a ha haL
    constructor
    · rw [hrf, if_pos rfl, List.length_append]
      simpa using hcnt
    · have hlen : (ratingsFor (rateSuccess db L uid v c) L).length ≠ 0 := by
        rw [hrf, if_pos rfl, List.length_append]
        simp
      rw [if_neg hlen]
      rfl
  · simp only [if_neg hc] at hlid ⊢
    have hLne : ¬ L = lid := by
      intro h
      exact hc (by simp [hlid, h])
    rw [hrf, if_neg hLne, List.append_nil]
    exact hcons a ha hlid

/-- Deleting rating rows keeps the store well formed. -/
theorem deleteRatingSuccess_wf (db : DB) (rid T : ℕ) (hwf : WF db) :
    WF (deleteRatingSuccess db rid T) := by
  obtain ⟨hnd, hbound⟩ := hwf
  constructor
  · exact ((List.filter_sublist _).map Rating.id).nodup hnd
  · intro r hr
    exact hbound r (List.mem_of_mem_filter hr)

/-- Deleting a stored rating row re-establishes the rounded-aggregate
consistency of its listing from scratch (COUNT and AVG over the
remaining rows), and leaves every other listing id untouched — the
latter step needs the primary key: the deleted id belongs to no other
listing's rating. -/
theorem deleteRatingSuccess_consistent (db : DB) (r : Rating) (lid : ℕ)
    (hwf : WF db) (hr : r ∈ db.ratings) (hcons : consistentFor db lid) :
    consistentFor (deleteRatingSuccess db r.id r.listing_id) lid := by
  intro lx hlx hlid
  obtain ⟨a, ha, rfl⟩ := List.mem_map.1 hlx
  by_cases hc : (a.id == r.listing_id) = true
  · simp only [if_pos hc] at hlid ⊢
    have haT : a.id = r.listing_id := by simpa using hc
    have hTlid : r.listing_id = lid := by rw [← haT]; exact hlid
    subst hTlid
    exact ⟨rfl, rfl⟩
  · simp only [if_neg hc] at hlid ⊢
    have hne : r.listing_id ≠ lid := by
      intro h
      exact hc (by simp [hlid, h])
    have key : ratingsFor (deleteRatingSuccess db r.id r.listing_id) lid =
        ratingsFor db lid := by
      simp only [ratingsFor, deleteRatingSuccess]
      rw [List.filter_filter]
      apply List.filter_congr
      intro x hx
      by_cases hxl : (x.listing_id == lid) = true
      · have hxlid : x.listing_id = lid := by simpa using hxl
        have hxid : x.id ≠ r.id := by
          intro he
          have hxr : x = r := List.inj_on_of_nodup_map hwf.1 hx hr he
          exact hne (hxr ▸ hxlid)
        simp [hxl, hxid]
      · have hxl2 : (x.listing_id == lid) = false := by simpa using hxl
        simp [hxl2]
    rw [key]
    exact hcons a ha hlid

/-- A rate call, successful or not, preserves well-formedness and the
rounded-aggregate consistency of every listing id. -/
theorem rate_preserves (db : DB) (L uid : ℕ) (v : Option ℚ) (c : Option String)
    (lid : ℕ) (hwf : WF db) (hcons : consistentFor db lid) :
    WF (rate db L uid v c).2 ∧ consistentFor (rate db L uid v c).2 lid := by
  cases v with
  | none => exact ⟨hwf, hcons⟩
  | some w =>
    simp only [rate]
    split
    · exact ⟨hwf, hcons⟩
    split
    · exact ⟨hwf, hcons⟩
    split
    · exact ⟨hwf, hcons⟩
    exact ⟨rateSuccess_wf db L uid w c hwf,
      rateSuccess_consistent db L uid w c lid hcons⟩

/-- A deleteRating call, successful or not, preserves well-formedness
and the rounded-aggregate consistency of every listing id. -/
theorem deleteRating_preserves (db : DB) (ident : Identity) (rid : ℕ) (lid : ℕ)
    (hwf : WF db) (hcons : consistentFor db lid) :
    WF (deleteRating db ident rid).2 ∧
    consistentFor (deleteRating db ident rid).2 lid := by
  unfold deleteRating
  cases hfind : (db.ratings.find? (fun r => r.id == rid)).bind
      (fun r => (db.listings.find? (fun l => l.id == r.listing_id)).map
        (fun l => (r, l))) with
  | none => exact ⟨hwf, hcons⟩
  | some rl =>
    obtain ⟨r, l⟩ := rl
    dsimp only
    split
    · exact ⟨hwf, hcons⟩
    · rcases Option.bind_eq_some.mp hfind with ⟨r0, hf, hmap⟩
      rcases Option.map_eq_some'.mp hmap with ⟨l0, -, heq⟩
      have hr0 : r0 = r := congrArg Prod.fst heq
      subst hr0
      have hrmem : r0 ∈ db.ratings := List.mem_of_find?_eq_some hf
      have hrid : r0.id = rid := by simpa using List.find?_some hf
      rw [← hrid]
      exact ⟨deleteRatingSuccess_wf db r0.id r0.listing_id hwf,
        deleteRatingSuccess_consistent db r0 lid hwf hrmem hcons⟩

/-- One workload step preserves both invariants. -/
theorem applyOp_preserves (db : DB) (op : Op) (lid : ℕ)
    (hwf : WF db) (hcons : consistentFor db lid) :
    WF (applyOp db op) ∧ consistentFor (applyOp db op) lid := by
  cases op with
  | opRate L uid v c => exact rate_preserves db L uid v c lid hwf hcons
  | opDeleteRating i rid => exact deleteRating_preserves db i rid lid hwf hcons

/-- Any workload preserves both invariants. -/
theorem applyOps_preserves (db : DB) (lid : ℕ) (ops : List Op)
    (hwf : WF db) (hcons : consistentFor db lid) :
    WF (applyOps db ops) ∧ consistentFor (applyOps db ops) lid := by
  induction ops generalizing db with
  | nil => exact ⟨hwf, hcons⟩
  | cons op rest ih =>
    obtain ⟨hwf2, hcons2⟩ := applyOp_preserves db op lid hwf hcons
    exact ih (applyOp db op) hwf2 hcons2

/-- C1 (amended) — starting from a well-formed store in which the given
listing's stored aggregates are consistent, any sequence of rate and
deleteRating calls (successful or failing) leaves rating_count equal to
the number of rating rows of that listing and average_rating equal to
the two-decimal rounding (numeric(3,2), halves away from zero) of their
mean, 0 when no ratings remain.  The stored average is NOT the exact
arithmetic mean whenever the mean needs more than two decimals; see the
counterexample. -/
theorem c1_rating_aggregates_rounded (db : DB) (lid : ℕ) (ops : List Op)
    (hwf : WF db) (hcons : consistentFor db lid) :
    WF (applyOps db ops) ∧ consistentFor (applyOps db ops) lid :=
  applyOps_preserves db lid ops hwf hcons

/-- C1 — counterexample to the claim as stated: from the consistent
empty-rating state, three successful ratings 5, 4, 4 of listing 1 leave
a stored average of 4.33 (the numeric(3,2) cast in the update
statement), which is not the arithmetic mean 13/3, so the exact-mean
invariant the claim states fails even though every call succeeded and
the count stays exact. -/
theorem c1_exact_mean_counterexample :
    WF c1db ∧ specConsistentFor c1db 1 ∧
    (rate c1db 1 10 (some 5) none).1 = Except.ok () ∧
    (rate (applyOps c1db [Op.opRate 1 10 (some 5) none]) 1 11 (some 4) none).1 =
      Except.ok () ∧
    (rate (applyOps c1db [Op.opRate 1 10 (some 5) none, Op.opRate 1 11 (some 4) none])
        1 12 (some 4) none).1 = Except.ok () ∧
    ¬ specConsistentFor (applyOps c1db c1ops) 1 := by
  refine ⟨by unfold WF; decide, by unfold specConsistentFor; decide, rfl, rfl, rfl, ?_⟩
  intro hspec
  have hwf0 : WF c1db := by unfold WF; decide
  have hcons0 : consistentFor c1db 1 := by unfold consistentFor; decide
  have hc := (applyOps_preserves c1db 1 c1ops hwf0 hcons0).2
  have hids : (applyOps c1db c1ops).listings.map Listing.id = [1] := rfl
  obtain ⟨L0, hL0, hLid⟩ :
      ∃ L0, (applyOps c1db c1ops).listings = [L0] ∧ L0.id = 1 := by
    cases hls : (applyOps c1db c1ops).listings with
    | nil => rw [hls] at hids; exact absurd hids (by simp)
    | cons a t =>
      rw [hls] at hids
      simp only [List.map_cons] at hids
      injection hids with h1 h2
      exact ⟨a, by rw [List.map_eq_nil_iff.mp h2], h1⟩
  have hmem : L0 ∈ (applyOps c1db c1ops).listings := by
    rw [hL0]; exact List.mem_singleton_self _
  have hr3 : ratingsFor (applyOps c1db c1ops) 1 =
      [⟨1, 1, 10, 5, none⟩, ⟨2, 1, 11, 4, none⟩, ⟨3, 1, 12, 4, none⟩] := rfl
  obtain ⟨-, havg⟩ := hc L0 hmem hLid
  obtain ⟨-, havg2⟩ := hspec L0 hmem hLid
  rw [hr3] at havg havg2
  have key := havg.symm.trans havg2
  simp only [List.length_cons, List.length_nil] at key
  rw [if_neg (by norm_num), if_neg (by norm_num)] at key
  have hsum : ((([(⟨1, 1, 10, 5, none⟩ : Rating), ⟨2, 1, 11, 4, none⟩,
      ⟨3, 1, 12, 4, none⟩]).map Rating.rating).sum : ℚ) = 13 := by
    norm_num [List.map_cons, List.sum_cons]
  unfold avgFor at key
  rw [hsum] at key
  have hfl : (⌊(13 : ℚ) / 3 * 100 + 1 / 2⌋ : ℤ) = 433 := by
    rw [show ((13 : ℚ) / 3 * 100 + 1 / 2) = 2603 / 6 by norm_num, Int.floor_eq_iff]
    constructor <;> norm_num
  unfold pgRound2 at key
  rw [show (([(⟨1, 1, 10, 5, none⟩ : Rating), ⟨2, 1, 11, 4, none⟩,
      ⟨3, 1, 12, 4, none⟩]).length : ℚ) = 3 by norm_num] at key
  rw [if_pos (by norm_num), hfl] at key
  norm_num at key

/-- Witness for C1 at a concrete run: three ratings followed by an
owner delete, starting from the consistent zeroed state, end in a state
that the theorem certifies consistent. -/
theorem c1_witness :
    WF c1db ∧ consistentFor c1db 1 ∧ consistentFor (applyOps c1db c1opsW) 1 :=
  ⟨by unfold WF; decide, by unfold consistentFor; decide,
    (c1_rating_aggregates_rounded c1db 1 c1opsW (by unfold WF; decide)
      (by unfold consistentFor; decide)).2⟩

end CampusConnect
